import Mathlib

/-!
Verification of the Sonory python-audio-analyzer core pipeline.

The Python sources are shallowly embedded in Lean:
* floating-point sample values and scores become exact rationals (ℚ);
  the NaN/Inf cases that matter for validation are modelled by the
  dedicated sum type RSample;
* the external collaborators (librosa resampling, np.sqrt, the YAMNet
  model call, the HTTP client) become explicit function parameters, so
  every theorem is quantified over their behaviour;
* fallible code returns Except.

Sources embedded:
* src/models/yamnet_wrapper.py  (YAMNetClassifier)
* src/services/audio_processor.py  (AudioProcessor)
-/

/- ## Generic helpers -/

/-- Python substring test: str_in_chars needle hay decides whether needle occurs
    contiguously inside hay, like Python's needle in hay for strings. -/
def str_in_chars (needle : List Char) : List Char → Bool
  | [] => needle.isEmpty
  | c :: rest => needle.isPrefixOf (c :: rest) || str_in_chars needle rest

/-- Python s.lower(), as a character list; the class names and keywords involved
    are ASCII, where per-character lowering coincides with str.lower. -/
def py_lower (s : String) : List Char :=
  s.data.map Char.toLower

/- ## Category mapper (YAMNetClassifier._convert_to_japanese and helpers) -/

/-- AUDIOSET_TO_JAPANESE table of YAMNetClassifier (yamnet_wrapper.py lines 28-149),
    as an insertion-ordered association list mirroring the Python dict. -/
def AUDIOSET_TO_JAPANESE : List (String × String) := [
  ("Motor vehicle (road)", "車の音"),
  ("Car", "車の音"),
  ("Vehicle horn, car horn, honking", "車の音"),
  ("Truck", "トラックの音"),
  ("Motorcycle", "バイクの音"),
  ("Bus", "バスの音"),
  ("Traffic noise, roadway noise", "交通音"),
  ("Engine", "エンジン音"),
  ("Accelerating, revving, vroom", "車の音"),
  ("Car alarm", "車の音"),
  ("Tire squeal", "車の音"),
  ("Train", "電車の音"),
  ("Rail transport", "電車の音"),
  ("Train horn", "電車の音"),
  ("Railroad car, train wagon", "電車の音"),
  ("Aircraft", "飛行機の音"),
  ("Airplane", "飛行機の音"),
  ("Helicopter", "ヘリコプターの音"),
  ("Bird", "鳥の鳴き声"),
  ("Bird vocalization, bird call, bird song", "鳥の鳴き声"),
  ("Chirp, tweet", "鳥の鳴き声"),
  ("Rain", "雨音"),
  ("Rainfall", "雨音"),
  ("Rain on surface", "雨音"),
  ("Wind", "風の音"),
  ("Wind noise (microphone)", "風の音"),
  ("Thunder", "雷の音"),
  ("Thunderstorm", "雷の音"),
  ("Water", "水の音"),
  ("Stream", "水の音"),
  ("Ocean", "海の音"),
  ("Waves, surf", "海の音"),
  ("Animal", "動物の声"),
  ("Dog", "犬の鳴き声"),
  ("Cat", "猫の鳴き声"),
  ("Bark", "犬の鳴き声"),
  ("Meow", "猫の鳴き声"),
  ("Roar", "動物の声"),
  ("Speech", "人の声"),
  ("Human voice", "人の声"),
  ("Conversation", "人の声"),
  ("Child speech, kid speaking", "人の声"),
  ("Male speech, man speaking", "人の声"),
  ("Female speech, woman speaking", "人の声"),
  ("Laughter", "笑い声"),
  ("Crying, sobbing", "泣き声"),
  ("Shout", "叫び声"),
  ("Whispering", "ささやき声"),
  ("Sneeze", "くしゃみ"),
  ("Cough", "咳"),
  ("Music", "音楽"),
  ("Musical instrument", "音楽"),
  ("Singing", "音楽"),
  ("Piano", "音楽"),
  ("Guitar", "音楽"),
  ("Drum", "音楽"),
  ("Bass drum", "音楽"),
  ("Electronic music", "音楽"),
  ("Rock music", "音楽"),
  ("Pop music", "音楽"),
  ("Construction noise", "工事の音"),
  ("Jackhammer", "工事の音"),
  ("Tools", "工事の音"),
  ("Power tool", "工事の音"),
  ("Drilling", "工事の音"),
  ("Hammer", "工事の音"),
  ("Saw", "工事の音"),
  ("Door", "ドアの音"),
  ("Doorbell", "ベルの音"),
  ("Footsteps", "足音"),
  ("Typing", "タイピング音"),
  ("Clapping", "拍手"),
  ("Microwave oven", "電子機器音"),
  ("Vacuum cleaner", "掃除機の音"),
  ("Air conditioning", "エアコンの音"),
  ("Television", "テレビの音"),
  ("Radio", "ラジオの音"),
  ("Siren", "サイレン"),
  ("Emergency vehicle", "緊急車両"),
  ("Fire alarm", "火災警報"),
  ("Smoke detector", "煙感知器"),
  ("Alarm", "警報音"),
  ("Beep, bleep", "電子音"),
  ("Click", "クリック音"),
  ("Tick", "時計の音"),
  ("Buzz", "ブザー音"),
  ("Dial tone", "電話音"),
  ("Phone", "電話音"),
  ("Ringtone", "着信音"),
  ("Silence", "静寂"),
  ("White noise", "ホワイトノイズ"),
  ("Static", "雑音"),
  ("Hum", "うなり音"),
  ("Rumble", "低音の響き"),
  ("Explosion", "爆発音"),
  ("Gunshot, gunfire", "銃声"),
  ("Fireworks", "花火の音")
]

/-- The keyword_mappings fallback table inside find_japanese_category
    (yamnet_wrapper.py lines 522-591): ordered groups of lowercase keywords,
    each group mapping to one localized category. -/
def keyword_mappings : List (List String × String) := [
  (["car", "vehicle", "motor", "auto"], "車の音"),
  (["truck", "lorry"], "トラックの音"),
  (["bike", "motorcycle", "motorbike"], "バイクの音"),
  (["bus"], "バスの音"),
  (["train", "rail", "locomotive"], "電車の音"),
  (["traffic", "road"], "交通音"),
  (["aircraft", "plane", "airplane", "jet"], "飛行機の音"),
  (["helicopter", "chopper"], "ヘリコプターの音"),
  (["bird", "chirp", "tweet", "song"], "鳥の鳴き声"),
  (["rain", "rainfall", "drizzle"], "雨音"),
  (["wind", "breeze", "gust"], "風の音"),
  (["water", "stream", "river", "ocean", "wave", "surf"], "水の音"),
  (["thunder", "storm"], "雷の音"),
  (["dog", "bark", "woof"], "犬の鳴き声"),
  (["cat", "meow", "purr"], "猫の鳴き声"),
  (["animal", "creature"], "動物の声"),
  (["speech", "voice", "speak", "talk", "conversation"], "人の声"),
  (["laugh", "giggle", "chuckle"], "笑い声"),
  (["cry", "weep", "sob"], "泣き声"),
  (["shout", "yell", "scream"], "叫び声"),
  (["whisper"], "ささやき声"),
  (["sneeze"], "くしゃみ"),
  (["cough"], "咳"),
  (["music", "musical", "song", "melody"], "音楽"),
  (["sing", "vocal", "choir"], "音楽"),
  (["piano", "keyboard"], "音楽"),
  (["guitar", "bass"], "音楽"),
  (["drum", "percussion"], "音楽"),
  (["construction", "building", "work"], "工事の音"),
  (["drill", "drilling"], "工事の音"),
  (["hammer", "hammering"], "工事の音"),
  (["saw", "sawing", "cutting"], "工事の音"),
  (["tool", "power tool"], "工事の音"),
  (["door", "gate"], "ドアの音"),
  (["bell", "doorbell", "chime"], "ベルの音"),
  (["foot", "step", "walk"], "足音"),
  (["type", "typing", "keyboard"], "タイピング音"),
  (["clap", "applause"], "拍手"),
  (["microwave", "oven"], "電子機器音"),
  (["vacuum", "cleaner"], "掃除機の音"),
  (["air conditioning", "ac", "hvac"], "エアコンの音"),
  (["tv", "television"], "テレビの音"),
  (["radio"], "ラジオの音"),
  (["siren", "alarm", "warning"], "警報音"),
  (["emergency", "ambulance", "fire truck"], "緊急車両"),
  (["beep", "bleep", "buzz", "buzzer"], "電子音"),
  (["phone", "telephone", "ring", "ringtone"], "電話音"),
  (["silence", "quiet"], "静寂"),
  (["noise", "static", "hiss"], "雑音"),
  (["tick", "clock"], "時計の音"),
  (["explosion", "blast", "bang"], "爆発音"),
  (["gunshot", "gun", "shot"], "銃声"),
  (["firework", "firecracker"], "花火の音")
]

/-- YAMNetClassifier._find_japanese_category (yamnet_wrapper.py lines 495-599):
    exact dict lookup, then bidirectional case-insensitive substring match over
    the same table in insertion order, then the keyword_mappings fallback; the
    first rule that matches wins, otherwise none. -/
def find_japanese_category (audioset_class : String) : Option String :=
  match List.lookup audioset_class AUDIOSET_TO_JAPANESE with
  | some cat => some cat
  | none =>
    let audioset_lower := py_lower audioset_class
    match AUDIOSET_TO_JAPANESE.find? (fun kv =>
        str_in_chars (py_lower kv.1) audioset_lower ||
        str_in_chars audioset_lower (py_lower kv.1)) with
    | some kv => some kv.2
    | none =>
      match keyword_mappings.find? (fun km =>
          km.1.any (fun kw => str_in_chars kw.data audioset_lower)) with
      | some km => some km.2
      | none => none

/-- Python dict update japanese_categories[cat] = score performed only when cat is
    absent or score > japanese_categories[cat] (yamnet_wrapper.py lines 430-433).
    A new key is appended at the end, an update keeps the key's position, matching
    insertion-ordered dict semantics. -/
def updateMax : List (String × ℚ) → String → ℚ → List (String × ℚ)
  | [], cat, score => [(cat, score)]
  | (k, v) :: rest, cat, score =>
    if k = cat then
      (if v < score then (k, score) :: rest else (k, v) :: rest)
    else
      (k, v) :: updateMax rest cat score

/-- One iteration of the mapping loop of _convert_to_japanese
    (yamnet_wrapper.py lines 422-439): drop scores below the 0.001 threshold,
    resolve the localized category, keep the maximum score per category;
    unmapped classes are only logged. -/
def map_step (acc : List (String × ℚ)) (p : String × ℚ) : List (String × ℚ) :=
  if p.2 < 1/1000 then acc
  else
    match find_japanese_category p.1 with
    | some cat => updateMax acc cat p.2
    | none => acc

/-- The japanese_categories dict built by the loop of _convert_to_japanese
    over the (class_name, score) pairs. -/
def japanese_categories (pairs : List (String × ℚ)) : List (String × ℚ) :=
  pairs.foldl map_step []

/-- The japanese_categories dict after the empty-result fallback
    (yamnet_wrapper.py lines 449-451): an empty dict is replaced by the single
    default category with confidence 1.0. -/
def japanese_categories_fb (pairs : List (String × ℚ)) : List (String × ℚ) :=
  let jc := japanese_categories pairs
  if jc = [] then [("不明な音", 1)] else jc

/-- total_confidence of _convert_to_japanese (yamnet_wrapper.py line 454). -/
def total_confidence (pairs : List (String × ℚ)) : ℚ :=
  ((japanese_categories_fb pairs).map Prod.snd).sum

/-- normalized_categories of _convert_to_japanese (yamnet_wrapper.py lines 457-468):
    divide by the total when it is positive, otherwise distribute uniformly. -/
def normalized_categories (pairs : List (String × ℚ)) : List (String × ℚ) :=
  if 0 < total_confidence pairs then
    (japanese_categories_fb pairs).map (fun p => (p.1, p.2 / total_confidence pairs))
  else
    (japanese_categories_fb pairs).map
      (fun p => (p.1, 1 / ((japanese_categories_fb pairs).length : ℚ)))

/-- Descending-confidence comparison used to sort the results
    (yamnet_wrapper.py lines 471-475). -/
def confGe (a b : String × ℚ) : Prop := b.2 ≤ a.2

instance : DecidableRel confGe := fun a b => inferInstanceAs (Decidable (b.2 ≤ a.2))

instance : IsTotal (String × ℚ) confGe := ⟨fun a b => le_total b.2 a.2⟩

instance : IsTrans (String × ℚ) confGe := ⟨fun _ _ _ h1 h2 => le_trans h2 h1⟩

/-- YAMNetClassifier._convert_to_japanese (yamnet_wrapper.py lines 393-493):
    map AudioSet (class_name, score) pairs to localized categories with
    max-aggregation, apply the empty fallback, renormalize to total 1, and sort
    by descending confidence. -/
def convert_to_japanese (pairs : List (String × ℚ)) : List (String × ℚ) :=
  List.insertionSort confGe (normalized_categories pairs)

/- ## Environment estimation (YAMNetClassifier._estimate_environment_type) -/

/-- The four environment buckets, in the fixed enumeration order of the
    ENVIRONMENT_KEYWORDS dict. -/
inductive EnvType
  | urban
  | natural
  | indoor
  | outdoor
deriving DecidableEq

/-- Position of a bucket in the enumeration order urban, natural, indoor, outdoor. -/
def envIdx : EnvType → ℕ
  | .urban => 0
  | .natural => 1
  | .indoor => 2
  | .outdoor => 3

/-- ENVIRONMENT_KEYWORDS table (yamnet_wrapper.py lines 152-169), one keyword
    list per environment bucket. -/
def ENVIRONMENT_KEYWORDS : EnvType → List String
  | .urban => ["Motor vehicle", "Car", "Truck", "Motorcycle", "Bus", "Traffic",
      "Train", "Construction", "Power tool", "Siren"]
  | .natural => ["Bird", "Rain", "Wind", "Water", "Stream", "Ocean", "Thunder",
      "Insect", "Animal"]
  | .indoor => ["Speech", "Music", "Television", "Radio", "Air conditioning",
      "Door", "Footsteps", "Typing"]
  | .outdoor => ["Bird", "Rain", "Wind", "Traffic", "Construction", "Aircraft",
      "Thunder", "Water"]

/-- Whether a class name matches a bucket: some keyword of the bucket occurs in
    the lowercased class name (yamnet_wrapper.py lines 621-625; the inner break
    makes one class contribute at most once per bucket). -/
def env_matches (t : EnvType) (class_name : String) : Bool :=
  (ENVIRONMENT_KEYWORDS t).any
    (fun kw => str_in_chars (py_lower kw) (py_lower class_name))

/-- One iteration of the accumulation loop of _estimate_environment_type:
    the class contributes its full score to every bucket it matches. -/
def env_add (acc : EnvType → ℚ) (p : String × ℚ) : EnvType → ℚ :=
  fun t => if env_matches t p.1 then acc t + p.2 else acc t

/-- Raw env_scores accumulated over all (class_name, score) pairs
    (yamnet_wrapper.py lines 616-625). -/
def raw_env_scores (pairs : List (String × ℚ)) : EnvType → ℚ :=
  pairs.foldl env_add (fun _ => 0)

/-- Sum of the four bucket values, as computed by sum(env_scores.values()). -/
def sum_env (f : EnvType → ℚ) : ℚ :=
  f .urban + f .natural + f .indoor + f .outdoor

/-- Python max(items, key) over the bucket items: keeps the current best unless a
    later item is strictly greater, so the first maximal element wins
    (yamnet_wrapper.py line 637). -/
def py_max_fst : EnvType × ℚ → List (EnvType × ℚ) → EnvType
  | best, [] => best.1
  | best, x :: rest => py_max_fst (if best.2 < x.2 then x else best) rest

/-- YAMNetClassifier._estimate_environment_type (yamnet_wrapper.py lines 601-649):
    accumulate keyword-matched scores per bucket, normalize to total 1 (uniform
    1/4 when the total is not positive), and pick the primary bucket as the
    first maximum in enumeration order. -/
def estimate_environment_type (pairs : List (String × ℚ)) : (EnvType → ℚ) × EnvType :=
  let raw := raw_env_scores pairs
  let total_score := sum_env raw
  let env_scores : EnvType → ℚ :=
    if 0 < total_score then fun t => raw t / total_score else fun _ => 1/4
  let primary_env := py_max_fst (.urban, env_scores .urban)
    [(.natural, env_scores .natural), (.indoor, env_scores .indoor),
     (.outdoor, env_scores .outdoor)]
  (env_scores, primary_env)

/- ## Audio metadata and validation (AudioProcessor._validate_audio_data) -/

/-- AudioMetadata (audio_processor.py lines 24-34). -/
structure AudioMetadata where
  duration : ℚ
  sample_rate : ℕ
  channels : ℕ
  format : Option String
  file_size : Option ℕ
deriving DecidableEq

/-- One decoded sample: a finite 32-bit float value modelled as an exact
    rational, or one of the non-finite float values NaN, +Inf, -Inf that the
    validation step checks for. -/
inductive RSample
  | val (q : ℚ)
  | nan
  | inf
  | ninf
deriving DecidableEq

/-- np.isnan(s) or np.isinf(s) for one sample. -/
def rs_invalid : RSample → Bool
  | .val _ => false
  | _ => true

/-- The comparison s == 0 used by np.all(waveform == 0); NaN == 0 and Inf == 0
    are both false. -/
def rs_is_zero : RSample → Bool
  | .val q => q == 0
  | _ => false

/-- The finite rational value of a sample; only applied after validation has
    ruled out NaN and Inf. -/
def rs_val : RSample → ℚ
  | .val q => q
  | _ => 0

/-- Validation failures raised by _validate_audio_data; the source raises
    ValueError with four distinct messages. -/
inductive AudioValidationError
  | emptySignal
  | tooShort
  | silent
  | invalidSamples
deriving DecidableEq

/-- MIN_DURATION = 0.1 seconds (audio_processor.py line 62). -/
def MIN_DURATION : ℚ := 1/10

/-- MAX_DURATION = 30.0 seconds (audio_processor.py line 61). -/
def MAX_DURATION : ℚ := 30

/-- TARGET_SAMPLE_RATE = 16000 Hz (audio_processor.py line 60). -/
def TARGET_SAMPLE_RATE : ℕ := 16000

/-- AudioProcessor._validate_audio_data (audio_processor.py lines 312-344):
    the guards run in source order; a duration above MAX_DURATION only logs a
    truncation warning and is not an error. -/
def validate_audio_data (waveform : List RSample) (metadata : AudioMetadata) :
    Except AudioValidationError Unit :=
  if waveform.length = 0 then .error .emptySignal
  else if metadata.duration < MIN_DURATION then .error .tooShort
  else if waveform.all rs_is_zero then .error .silent
  else if waveform.any rs_invalid then .error .invalidSamples
  else .ok ()

/- ## Preprocessing (AudioProcessor._preprocess_for_yamnet) -/

/-- processing_info record (audio_processor.py lines 361-367). -/
structure ProcessingInfo where
  original_sample_rate : ℕ
  target_sample_rate : ℕ
  resampled : Bool
  normalized : Bool
  truncated : Bool
deriving DecidableEq

/-- np.clip(x, -1.0, 1.0) on one sample. -/
def rat_clip (x : ℚ) : ℚ :=
  max (-1) (min x 1)

/-- np.max(np.abs(waveform)), with 0 for the empty waveform. -/
def max_abs (w : List ℚ) : ℚ :=
  (w.map (fun x => |x|)).foldr max 0

/-- np.mean(waveform ** 2), the mean square of the samples. -/
def mean_square (w : List ℚ) : ℚ :=
  (w.map (fun x => x ^ 2)).sum / (w.length : ℚ)

/-- max_samples = int(MAX_DURATION * TARGET_SAMPLE_RATE) (audio_processor.py
    line 381). -/
def MAX_SAMPLES : ℕ := 480000

/-- The resampling block of _preprocess_for_yamnet (audio_processor.py lines
    369-378): resample when the native rate differs from the target rate; the
    Bool is the resampled flag. The librosa kaiser_fast resampler is an
    external numeric routine and enters as the parameter resample. -/
def resample_step (resample : List ℚ → ℕ → ℕ → List ℚ)
    (waveform : List ℚ) (original_sr : ℕ) : List ℚ × Bool :=
  if original_sr ≠ TARGET_SAMPLE_RATE then
    (resample waveform original_sr TARGET_SAMPLE_RATE, true)
  else (waveform, false)

/-- The truncation block of _preprocess_for_yamnet (audio_processor.py lines
    380-385); the Bool is the truncated flag. -/
def truncate_step (waveform : List ℚ) : List ℚ × Bool :=
  if MAX_SAMPLES < waveform.length then (waveform.take MAX_SAMPLES, true)
  else (waveform, false)

/-- The RMS-normalization block of _preprocess_for_yamnet (audio_processor.py
    lines 387-394); np.sqrt enters as the parameter sqrtFn; the Bool is the
    normalized flag. -/
def normalize_step (sqrtFn : ℚ → ℚ) (waveform : List ℚ) : List ℚ × Bool :=
  if 0 < max_abs waveform then
    let rms := sqrtFn (mean_square waveform)
    if 0 < rms then
      (waveform.map (fun x => rat_clip (x / (rms * 10))), true)
    else (waveform, false)
  else (waveform, false)

/-- AudioProcessor._preprocess_for_yamnet (audio_processor.py lines 346-399):
    resample, truncate, normalize, and record the processing_info flags; the
    final astype(np.float32) is the identity on the exact-rational model. -/
def preprocess_for_yamnet (resample : List ℚ → ℕ → ℕ → List ℚ)
    (sqrtFn : ℚ → ℚ) (waveform : List ℚ) (original_sr : ℕ) :
    List ℚ × ProcessingInfo :=
  let s1 := resample_step resample waveform original_sr
  let s2 := truncate_step s1.1
  let s3 := normalize_step sqrtFn s2.1
  (s3.1,
   { original_sample_rate := original_sr, target_sample_rate := TARGET_SAMPLE_RATE,
     resampled := s1.2, normalized := s3.2, truncated := s2.2 })

/-- ProcessedAudio (audio_processor.py lines 37-49), restricted to the fields
    with functional content. -/
structure ProcessedAudio where
  waveform : List ℚ
  sample_rate : ℕ
  processing_info : ProcessingInfo
deriving DecidableEq

/-- The validate-then-preprocess part of AudioProcessor.process_audio_from_file
    (audio_processor.py lines 242-255): validate the decoded waveform, run
    _preprocess_for_yamnet, and package the result with
    sample_rate = TARGET_SAMPLE_RATE. -/
def process_audio_decoded (resample : List ℚ → ℕ → ℕ → List ℚ)
    (sqrtFn : ℚ → ℚ) (waveform : List RSample) (original_sr : ℕ)
    (metadata : AudioMetadata) : Except AudioValidationError ProcessedAudio :=
  match validate_audio_data waveform metadata with
  | .error e => .error e
  | .ok _ =>
    let res := preprocess_for_yamnet resample sqrtFn (waveform.map rs_val) original_sr
    .ok { waveform := res.1, sample_rate := TARGET_SAMPLE_RATE, processing_info := res.2 }

/- ## URL acquisition (AudioProcessor.process_audio_from_url) -/

/-- Raw downloaded bytes. -/
abbrev ByteData := List ℕ

/-- Failures of process_audio_from_url: the ValueError for a bad scheme, the
    RuntimeError raised after the retry budget is exhausted (carrying the last
    HTTP error), and the RuntimeError wrapping any non-HTTP processing error. -/
inductive UrlError
  | invalidSource
  | fetchExhausted (last_error : String)
  | processingFailed (e : String)
deriving DecidableEq

/-- The retry loop of process_audio_from_url (audio_processor.py lines 101-135).
    The HTTP client is the parameter fetch, mapping the attempt index to either
    the downloaded bytes or an HTTP error (transport error or non-success
    status via raise_for_status); processBytes is the downstream
    process_audio_from_bytes call, whose failure is not retried.
    remaining equals max_retries minus the current attempt index, so
    remaining = 0 is the Python check attempt == max_retries. The second
    component counts the fetch attempts actually made. -/
def fetch_loop {α : Type} (fetch : ℕ → Except String ByteData)
    (processBytes : ByteData → Except String α) :
    (remaining : ℕ) → (attempt : ℕ) → Except UrlError α × ℕ
  | remaining, attempt =>
    match fetch attempt with
    | .ok bytes =>
      match processBytes bytes with
      | .ok a => (.ok a, attempt + 1)
      | .error e => (.error (.processingFailed e), attempt + 1)
    | .error e =>
      match remaining with
      | 0 => (.error (.fetchExhausted e), attempt + 1)
      | r + 1 => fetch_loop fetch processBytes r (attempt + 1)

/-- The scheme check of process_audio_from_url (audio_processor.py line 96):
    audio_url.startswith(("http://", "https://")). -/
def valid_url (audio_url : String) : Bool :=
  "http://".data.isPrefixOf audio_url.data || "https://".data.isPrefixOf audio_url.data

/-- The URL scheme: the characters before the first colon. -/
def url_scheme (audio_url : String) : List Char :=
  audio_url.data.takeWhile (fun c => c != ':')

/-- AudioProcessor.process_audio_from_url (audio_processor.py lines 77-135):
    reject a URL that does not start with http:// or https:// before any
    network call, then run the retry loop with max_retries + 1 total attempts.
    The second component counts the fetch attempts made. -/
def process_audio_from_url {α : Type} (fetch : ℕ → Except String ByteData)
    (processBytes : ByteData → Except String α) (audio_url : String)
    (max_retries : ℕ) : Except UrlError α × ℕ :=
  if valid_url audio_url then fetch_loop fetch processBytes max_retries 0
  else (.error .invalidSource, 0)

/- ## Classifier lifecycle and inference guards (YAMNetClassifier) -/

/-- The mutable state of a YAMNetClassifier: self.model, self.class_names and
    self._initialized (yamnet_wrapper.py lines 178-181). The loaded model
    carries no data relevant to the embedded contract, so it is Unit. -/
structure YState where
  model : Option Unit
  class_names : Option (List String)
  initialized : Bool
deriving DecidableEq

/-- A freshly constructed classifier (yamnet_wrapper.py lines 171-181). -/
def freshClassifier : YState :=
  { model := none, class_names := none, initialized := false }

/-- YAMNetClassifier.initialize (yamnet_wrapper.py lines 183-217): a no-op when
    already initialized; otherwise the model load (an external call, passed in
    as load_result) either populates the state or raises RuntimeError. -/
def initClassifier (st : YState) (load_result : Except String (Unit × List String)) :
    Except String YState :=
  if st.initialized then .ok st
  else
    match load_result with
    | .ok ml => .ok { model := some ml.1, class_names := some ml.2, initialized := true }
    | .error e => .error ("YAMNet initialization failed: " ++ e)

/-- The errors classify_audio can raise before inference: RuntimeError when the
    model is not initialized, ValueError when the waveform is not 1-D
    (yamnet_wrapper.py lines 287-291). -/
inductive ClassifyError
  | notInitialized
  | notOneDimensional
deriving DecidableEq

/-- np.mean(scores, axis=0): the per-class mean over the frame axis. -/
def mean_axis0 (scores : List (List ℚ)) : List ℚ :=
  match scores with
  | [] => []
  | r0 :: _ =>
    (List.range r0.length).map
      (fun j => ((scores.map (fun row => row.getD j 0)).sum) / (scores.length : ℚ))

/-- The top-candidate selection of classify_audio (yamnet_wrapper.py lines
    345-367): order the (class_name, mean_score) pairs by descending score and
    keep at most min(20, number of classes), then top_k of them. np.argsort has
    no specified tie order, and no claim depends on tie order. -/
def top_candidates (class_names : List String) (mean_scores : List ℚ)
    (top_k : ℕ) : List (String × ℚ) :=
  let ranked := List.insertionSort confGe (class_names.zip mean_scores)
  (ranked.take (min 20 mean_scores.length)).take top_k

/-- YAMNetClassifier.classify_audio (yamnet_wrapper.py lines 266-391): guard on
    initialization and waveform dimensionality, then convert the model's frame
    scores (the parameter frame_scores, i.e. the output of self.model) into the
    localized categories and the environment estimate. A sample_rate other than
    16000 only triggers a warning log (lines 293-297) and processing continues.
    waveform_ndim is the dimensionality of the numpy array passed in. -/
def classify_audio (st : YState) (frame_scores : List (List ℚ))
    (waveform_ndim : ℕ) (sample_rate : ℕ) (top_k : ℕ) :
    Except ClassifyError (List (String × ℚ) × (EnvType → ℚ) × EnvType) :=
  if !st.initialized || st.model.isNone then .error .notInitialized
  else if waveform_ndim ≠ 1 then .error .notOneDimensional
  else
    let mean_scores := mean_axis0 frame_scores
    let names := st.class_names.getD []
    let final := top_candidates names mean_scores top_k
    let japanese_results := convert_to_japanese final
    let env := estimate_environment_type final
    .ok (japanese_results, env.1, env.2)

/-- The scores of the pairs that survive the 0.001 threshold and resolve to the
    category cat, in input order. -/
def selected (cat : String) (pairs : List (String × ℚ)) : List ℚ :=
  (pairs.filter
    (fun p => !(decide (p.2 < 1/1000)) && (find_japanese_category p.1 == some cat))).map Prod.snd

/-- Running maximum over a list of scores, starting from an optional current
    best; mirrors how the dict of japanese_categories evolves for one key. -/
def opt_fold (o : Option ℚ) (ss : List ℚ) : Option ℚ :=
  ss.foldl (fun acc s => some (match acc with | none => s | some v => max v s)) o

/- ## Lemmas about the category mapper -/

theorem values_updateMax (l : List (String × ℚ)) (cat : String) (s : ℚ) :
    ∀ v ∈ (updateMax l cat s).map Prod.snd, v = s ∨ v ∈ l.map Prod.snd := by
  induction l with
  | nil => intro v hv; simp [updateMax] at hv; exact Or.inl hv
  | cons hd tl ih =>
    intro v hv
    rcases hd with ⟨k, w⟩
    by_cases hk : k = cat
    · by_cases hw : w < s
      · simp [updateMax, hk, hw] at hv
        rcases hv with h | h
        · exact Or.inl h
        · exact Or.inr (by simp [h])
      · simp [updateMax, hk, hw] at hv
        rcases hv with h | h
        · exact Or.inr (by simp [h])
        · exact Or.inr (by simp [h])
    · simp [updateMax, hk] at hv
      rcases hv with h | h
      · exact Or.inr (by simp [h])
      · rcases ih v (by simpa using h) with h' | h'
        · exact Or.inl h'
        · exact Or.inr (by simp [h'])

theorem values_map_step (acc : List (String × ℚ)) (p : String × ℚ)
    (h : ∀ v ∈ acc.map Prod.snd, 1/1000 ≤ v) :
    ∀ v ∈ (map_step acc p).map Prod.snd, 1/1000 ≤ v := by
  intro v hv
  unfold map_step at hv
  by_cases hp : p.2 < 1/1000
  · rw [if_pos hp] at hv
    exact h v hv
  · rw [if_neg hp] at hv
    rcases hcat : find_japanese_category p.1 with _ | cat
    · rw [hcat] at hv
      exact h v hv
    · rw [hcat] at hv
      rcases values_updateMax acc cat p.2 v hv with he | hm
      · subst he; exact le_of_not_lt hp
      · exact h v hm

theorem values_fold (pairs : List (String × ℚ)) (acc : List (String × ℚ))
    (h : ∀ v ∈ acc.map Prod.snd, 1/1000 ≤ v) :
    ∀ v ∈ (List.foldl map_step acc pairs).map Prod.snd, 1/1000 ≤ v := by
  induction pairs generalizing acc with
  | nil => exact h
  | cons p rest ih =>
    intro v hv
    exact ih (map_step acc p) (values_map_step acc p h) v hv

theorem values_fb (pairs : List (String × ℚ)) :
    ∀ v ∈ (japanese_categories_fb pairs).map Prod.snd, 1/1000 ≤ v := by
  intro v hv
  by_cases hjc : japanese_categories pairs = []
  · simp [japanese_categories_fb, hjc] at hv
    subst hv; norm_num
  · simp [japanese_categories_fb, hjc] at hv
    exact values_fold pairs [] (by simp) v (by simpa [japanese_categories] using hv)

theorem fb_ne_nil (pairs : List (String × ℚ)) : japanese_categories_fb pairs ≠ [] := by
  by_cases hjc : japanese_categories pairs = [] <;> simp [japanese_categories_fb, hjc]

theorem total_confidence_pos (pairs : List (String × ℚ)) : 0 < total_confidence pairs := by
  have h1 := values_fb pairs
  have h2 : (japanese_categories_fb pairs).map Prod.snd ≠ [] := by
    simpa using fb_ne_nil pairs
  exact List.sum_pos _ (fun x hx => lt_of_lt_of_le (by norm_num) (h1 x hx)) h2

theorem normalized_eq_div (pairs : List (String × ℚ)) :
    normalized_categories pairs =
      (japanese_categories_fb pairs).map (fun p => (p.1, p.2 / total_confidence pairs)) := by
  simp [normalized_categories, total_confidence_pos pairs]

theorem sum_map_div (l : List (String × ℚ)) (t : ℚ) :
    ((l.map (fun p => (p.1, p.2 / t))).map Prod.snd).sum = ((l.map Prod.snd).sum) / t := by
  induction l with
  | nil => simp
  | cons p rest ih =>
    simp only [List.map_cons, List.sum_cons]
    rw [ih, add_div]

theorem sum_normalized (pairs : List (String × ℚ)) :
    ((normalized_categories pairs).map Prod.snd).sum = 1 := by
  rw [normalized_eq_div, sum_map_div]
  have ht : ((japanese_categories_fb pairs).map Prod.snd).sum = total_confidence pairs := rfl
  rw [ht]
  exact div_self (ne_of_gt (total_confidence_pos pairs))

/-- C1: for every input list of (class_name, score) pairs, the category list
    returned by _convert_to_japanese has confidences summing to exactly 1 (so
    certainly within the 1e-6 floating tolerance) and is sorted in descending
    order of confidence. -/
theorem C1_category_sum_sorted (pairs : List (String × ℚ)) :
    ((convert_to_japanese pairs).map Prod.snd).sum = 1 ∧
    List.Sorted confGe (convert_to_japanese pairs) := by
  constructor
  · have hperm := List.perm_insertionSort confGe (normalized_categories pairs)
    have := (hperm.map Prod.snd).sum_eq
    simpa [convert_to_japanese, this] using sum_normalized pairs
  · simpa [convert_to_japanese] using
      List.sorted_insertionSort confGe (normalized_categories pairs)

/-- C10: before renormalization, every retained confidence in the category dict
    is at least the 0.001 threshold (the fallback assigns 1.0), the total is
    strictly positive, and the renormalization step always takes the
    divide-by-total branch, so the defensive uniform-distribution branch is
    unreachable. -/
theorem C10_positive_total (pairs : List (String × ℚ)) :
    (∀ v ∈ (japanese_categories_fb pairs).map Prod.snd, 1/1000 ≤ v) ∧
    0 < total_confidence pairs ∧
    normalized_categories pairs =
      (japanese_categories_fb pairs).map (fun p => (p.1, p.2 / total_confidence pairs)) :=
  ⟨values_fb pairs, total_confidence_pos pairs, normalized_eq_div pairs⟩

/-- Closed instance of C10_positive_total at a concrete input. -/
theorem C10_positive_total_witness : 0 < total_confidence [("Car", 1/2)] :=
  (C10_positive_total [("Car", 1/2)]).2.1

/- ## Max-aggregation lemmas for C6 -/

theorem beq_ne {a b : String} (h : ¬ a = b) : (a == b) = false := by
  cases hab : a == b
  · rfl
  · exact absurd (eq_of_beq hab) h

theorem opt_fold_cons (o : Option ℚ) (s : ℚ) (ss : List ℚ) :
    opt_fold o (s :: ss) =
      opt_fold (some (match o with | none => s | some v => max v s)) ss := rfl

theorem opt_fold_some (ss : List ℚ) : ∀ v, opt_fold (some v) ss = some (ss.foldl max v) := by
  induction ss with
  | nil => intro v; rfl
  | cons s rest ih =>
    intro v
    rw [opt_fold_cons]
    show opt_fold (some (max v s)) rest = some (List.foldl max v (s :: rest))
    rw [ih (max v s)]
    rfl

theorem opt_fold_none_max (ss : List ℚ) : opt_fold none ss = ss.max? := by
  cases ss with
  | nil => rfl
  | cons s rest =>
    rw [opt_fold_cons]
    show opt_fold (some s) rest = _
    rw [opt_fold_some]
    rfl

theorem lookup_updateMax (l : List (String × ℚ)) (cat c : String) (s : ℚ) :
    List.lookup c (updateMax l cat s) =
      if c = cat then
        some (match List.lookup c l with | none => s | some v => max v s)
      else List.lookup c l := by
  induction l with
  | nil =>
    by_cases hc : c = cat
    · simp [updateMax, List.lookup, hc]
    · simp [updateMax, List.lookup, hc, beq_ne hc]
  | cons hd tl ih =>
    rcases hd with ⟨k, v⟩
    simp only [updateMax]
    by_cases hk : k = cat
    · subst hk
      rw [if_pos rfl]
      by_cases hv : v < s
      · rw [if_pos hv]
        by_cases hc : c = k
        · subst hc
          simp [List.lookup, max_eq_right (le_of_lt hv)]
        · simp [List.lookup, beq_ne hc, hc]
      · rw [if_neg hv]
        by_cases hc : c = k
        · subst hc
          simp [List.lookup, max_eq_left (le_of_not_lt hv)]
        · simp [List.lookup, beq_ne hc, hc]
    · rw [if_neg hk]
      by_cases hc : c = k
      · subst hc
        simp [List.lookup, hk]
      · simp [List.lookup, hc, beq_ne hc, ih]

theorem lookup_fold (pairs : List (String × ℚ)) (acc : List (String × ℚ)) (c : String) :
    List.lookup c (pairs.foldl map_step acc) = opt_fold (List.lookup c acc) (selected c pairs) := by
  induction pairs generalizing acc with
  | nil => simp [selected, opt_fold]
  | cons p rest ih =>
    simp only [List.foldl_cons]
    rw [ih]
    unfold map_step
    by_cases hp : p.2 < 1/1000
    · rw [if_pos hp]
      have hb : (!decide (p.2 < 1/1000) && (find_japanese_category p.1 == some c)) = false := by
        rw [decide_eq_true hp]
        rfl
      have hsel : selected c (p :: rest) = selected c rest := by
        simp only [selected, List.filter_cons]
        rw [hb]
        simp
      rw [hsel]
    · rw [if_neg hp]
      rcases hcat : find_japanese_category p.1 with _ | cat'
      · have hb : (!decide (p.2 < 1/1000) && (find_japanese_category p.1 == some c)) = false := by
          rw [hcat]
          simp
        have hsel : selected c (p :: rest) = selected c rest := by
          simp only [selected, List.filter_cons]
          rw [hb]
          simp
        rw [hsel]
      · by_cases hc : cat' = c
        · subst hc
          rw [lookup_updateMax, if_pos rfl]
          have hb : (!decide (p.2 < 1/1000) && (find_japanese_category p.1 == some cat')) = true := by
            rw [decide_eq_false hp, hcat]
            simp
          have hsel : selected cat' (p :: rest) = p.2 :: selected cat' rest := by
            simp only [selected, List.filter_cons]
            rw [hb]
            simp
          rw [hsel, opt_fold_cons]
        · rw [lookup_updateMax, if_neg (fun h => hc h.symm)]
          have hb : (!decide (p.2 < 1/1000) && (find_japanese_category p.1 == some c)) = false := by
            rw [hcat]
            simp [hc]
          have hsel : selected c (p :: rest) = selected c rest := by
            simp only [selected, List.filter_cons]
            rw [hb]
            simp
          rw [hsel]

theorem lookup_japanese_categories (pairs : List (String × ℚ)) (c : String) :
    List.lookup c (japanese_categories pairs) = (selected c pairs).max? := by
  have h := lookup_fold pairs [] c
  simpa [japanese_categories, opt_fold_none_max] using h

/-- C6: the pairs ("Car", 0.3) and ("Motor vehicle (road)", 0.5) both resolve
    to the localized category "車の音" and the mapper returns that single
    category with confidence 1; in general the dict value of every category is
    the maximum (not the sum) of the scores of the retained classes resolving
    to it, the strict greater-than update keeping the first-seen entry on
    ties. -/
theorem C6_max_aggregation :
    convert_to_japanese [("Car", 3/10), ("Motor vehicle (road)", 1/2)] = [("車の音", 1)] ∧
    ∀ (pairs : List (String × ℚ)) (c : String),
      List.lookup c (japanese_categories pairs) = (selected c pairs).max? := by
  constructor
  · have h1 : find_japanese_category "Car" = some "車の音" := by decide
    have h2 : find_japanese_category "Motor vehicle (road)" = some "車の音" := by decide
    norm_num [convert_to_japanese, normalized_categories, total_confidence,
      japanese_categories_fb, japanese_categories, map_step, h1, h2, updateMax,
      List.insertionSort, List.orderedInsert]
  · exact fun pairs c => lookup_japanese_categories pairs c

/-- Closed instance of the aggregation law of C6_max_aggregation at a concrete
    input. -/
theorem C6_max_aggregation_witness :
    List.lookup "車の音" (japanese_categories [("Car", 1/2)]) =
      (selected "車の音" [("Car", 1/2)]).max? :=
  C6_max_aggregation.2 [("Car", 1/2)] "車の音"

/- ## Environment estimation lemmas -/

theorem sum_env_div (f : EnvType → ℚ) (t : ℚ) :
    sum_env (fun x => f x / t) = sum_env f / t := by
  simp only [sum_env, div_add_div_same]

theorem py_max4_first (s : EnvType → ℚ) :
    (∀ t, s t ≤ s (py_max_fst (.urban, s .urban)
        [(.natural, s .natural), (.indoor, s .indoor), (.outdoor, s .outdoor)])) ∧
    (∀ t, s t = s (py_max_fst (.urban, s .urban)
        [(.natural, s .natural), (.indoor, s .indoor), (.outdoor, s .outdoor)]) →
      envIdx (py_max_fst (.urban, s .urban)
        [(.natural, s .natural), (.indoor, s .indoor), (.outdoor, s .outdoor)]) ≤ envIdx t) := by
  simp only [py_max_fst]
  split_ifs <;>
    refine ⟨fun t => ?_, fun t ht => ?_⟩ <;>
    cases t <;> simp_all [envIdx] <;> linarith

/-- C2: environment estimation always returns the four fixed buckets with
    values summing to 1; when every raw bucket sum is 0 each bucket gets 1/4;
    and the primary environment carries the maximum value, the first bucket in
    the enumeration order urban, natural, indoor, outdoor winning ties. -/
theorem C2_environment (pairs : List (String × ℚ)) :
    sum_env (estimate_environment_type pairs).1 = 1 ∧
    ((∀ t, raw_env_scores pairs t = 0) → ∀ t, (estimate_environment_type pairs).1 t = 1/4) ∧
    (∀ t, (estimate_environment_type pairs).1 t ≤
        (estimate_environment_type pairs).1 (estimate_environment_type pairs).2) ∧
    (∀ t, (estimate_environment_type pairs).1 t =
        (estimate_environment_type pairs).1 (estimate_environment_type pairs).2 →
      envIdx (estimate_environment_type pairs).2 ≤ envIdx t) := by
  obtain ⟨hmax, hfirst⟩ := py_max4_first
    (if 0 < sum_env (raw_env_scores pairs) then
       fun t => raw_env_scores pairs t / sum_env (raw_env_scores pairs)
     else fun _ => 1/4)
  refine ⟨?_, ?_, ?_, ?_⟩
  · simp only [estimate_environment_type]
    by_cases h : 0 < sum_env (raw_env_scores pairs)
    · rw [if_pos h, sum_env_div]
      exact div_self (ne_of_gt h)
    · rw [if_neg h]
      norm_num [sum_env]
  · intro hz t
    have htot : sum_env (raw_env_scores pairs) = 0 := by
      simp [sum_env, hz]
    simp only [estimate_environment_type]
    rw [if_neg (by rw [htot]; exact lt_irrefl 0)]
  · intro t
    simpa only [estimate_environment_type] using hmax t
  · intro t
    simpa only [estimate_environment_type] using hfirst t

/-- Closed instance of C2_environment at a concrete input. -/
theorem C2_environment_witness :
    sum_env (estimate_environment_type [("Bird", 3/5)]).1 = 1 :=
  (C2_environment [("Bird", 3/5)]).1

/-- C5 as stated is false: on [("Bird", 0.6), ("Rain", 0.4)] the program's
    keyword tables put both classes in the natural AND the outdoor bucket
    ("Bird" and "Rain" appear in both lists), so the outcome is not
    natural = 1.0 with the other buckets 0.0. -/
theorem C5_counterexample :
    ¬ ((estimate_environment_type [("Bird", 3/5), ("Rain", 2/5)]).1 EnvType.natural = 1 ∧
       (estimate_environment_type [("Bird", 3/5), ("Rain", 2/5)]).1 EnvType.urban = 0 ∧
       (estimate_environment_type [("Bird", 3/5), ("Rain", 2/5)]).1 EnvType.indoor = 0 ∧
       (estimate_environment_type [("Bird", 3/5), ("Rain", 2/5)]).1 EnvType.outdoor = 0 ∧
       (estimate_environment_type [("Bird", 3/5), ("Rain", 2/5)]).2 = EnvType.natural) := by
  intro h
  have h1 : env_matches EnvType.urban "Bird" = false := by decide
  have h2 : env_matches EnvType.natural "Bird" = true := by decide
  have h3 : env_matches EnvType.indoor "Bird" = false := by decide
  have h4 : env_matches EnvType.outdoor "Bird" = true := by decide
  have h5 : env_matches EnvType.urban "Rain" = false := by decide
  have h6 : env_matches EnvType.natural "Rain" = true := by decide
  have h7 : env_matches EnvType.indoor "Rain" = false := by decide
  have h8 : env_matches EnvType.outdoor "Rain" = true := by decide
  have hnat : (estimate_environment_type [("Bird", 3/5), ("Rain", 2/5)]).1 EnvType.natural = 1/2 := by
    norm_num [estimate_environment_type, raw_env_scores, env_add, sum_env,
      h1, h2, h3, h4, h5, h6, h7, h8]
  rw [h.1] at hnat
  norm_num at hnat

/-- C5 amended: on [("Bird", 0.6), ("Rain", 0.4)] both classes match the
    natural and the outdoor keyword lists and neither matches urban or indoor,
    so estimation yields urban = 0, natural = 1/2, indoor = 0, outdoor = 1/2,
    and the primary environment is natural (the earlier bucket of the two tied
    maxima). -/
theorem C5_amended_environment :
    (estimate_environment_type [("Bird", 3/5), ("Rain", 2/5)]).1 EnvType.urban = 0 ∧
    (estimate_environment_type [("Bird", 3/5), ("Rain", 2/5)]).1 EnvType.natural = 1/2 ∧
    (estimate_environment_type [("Bird", 3/5), ("Rain", 2/5)]).1 EnvType.indoor = 0 ∧
    (estimate_environment_type [("Bird", 3/5), ("Rain", 2/5)]).1 EnvType.outdoor = 1/2 ∧
    (estimate_environment_type [("Bird", 3/5), ("Rain", 2/5)]).2 = EnvType.natural := by
  have h1 : env_matches EnvType.urban "Bird" = false := by decide
  have h2 : env_matches EnvType.natural "Bird" = true := by decide
  have h3 : env_matches EnvType.indoor "Bird" = false := by decide
  have h4 : env_matches EnvType.outdoor "Bird" = true := by decide
  have h5 : env_matches EnvType.urban "Rain" = false := by decide
  have h6 : env_matches EnvType.natural "Rain" = true := by decide
  have h7 : env_matches EnvType.indoor "Rain" = false := by decide
  have h8 : env_matches EnvType.outdoor "Rain" = true := by decide
  norm_num [estimate_environment_type, raw_env_scores, env_add, sum_env,
    py_max_fst, h1, h2, h3, h4, h5, h6, h7, h8]

/- ## Validation: C7 -/

/-- C7: the validation guards characterized in their source order: EmptySignal
    exactly on an empty waveform; TooShort exactly when the duration is below
    MIN_DURATION (on a nonempty waveform); Silent exactly when every sample is
    exactly zero (given the earlier guards pass); InvalidSamples exactly when
    some sample is NaN or Inf (given the earlier guards pass); and a duration
    above MAX_DURATION is no error: validation succeeds whenever the four
    guards pass, whatever the duration. -/
theorem C7_validation (w : List RSample) (meta : AudioMetadata) :
    (validate_audio_data w meta = .error .emptySignal ↔ w = []) ∧
    (validate_audio_data w meta = .error .tooShort ↔
      w ≠ [] ∧ meta.duration < MIN_DURATION) ∧
    (validate_audio_data w meta = .error .silent ↔
      w ≠ [] ∧ ¬(meta.duration < MIN_DURATION) ∧ w.all rs_is_zero = true) ∧
    (validate_audio_data w meta = .error .invalidSamples ↔
      w ≠ [] ∧ ¬(meta.duration < MIN_DURATION) ∧ ¬(w.all rs_is_zero = true) ∧
      w.any rs_invalid = true) ∧
    (w ≠ [] → ¬(meta.duration < MIN_DURATION) → ¬(w.all rs_is_zero = true) →
      ¬(w.any rs_invalid = true) → validate_audio_data w meta = .ok ()) := by
  unfold validate_audio_data
  split_ifs with h0 h1 h2 h3 <;> simp_all [List.length_eq_zero]

/-- Closed instance of C7_validation: a 31-second waveform that passes the four
    guards validates successfully even though it exceeds MAX_DURATION. -/
theorem C7_validation_witness :
    validate_audio_data [RSample.val (1/2)]
      { duration := 31, sample_rate := 44100, channels := 1,
        format := none, file_size := none } = .ok () :=
  (C7_validation [RSample.val (1/2)]
      { duration := 31, sample_rate := 44100, channels := 1,
        format := none, file_size := none }).2.2.2.2
    (by simp) (by norm_num [MIN_DURATION]) (by simp [rs_is_zero]) (by simp [rs_invalid])

/- ## Preprocessing lemmas for C3 -/

theorem mem_le_max_abs (w : List ℚ) : ∀ x ∈ w, |x| ≤ max_abs w := by
  induction w with
  | nil => simp
  | cons a rest ih =>
    intro x hx
    simp only [max_abs, List.map_cons, List.foldr_cons]
    rcases List.mem_cons.mp hx with rfl | hx'
    · exact le_max_left _ _
    · exact le_trans (ih x hx') (le_max_right _ _)

theorem max_abs_zero_all (w : List ℚ) (h : ¬ 0 < max_abs w) : ∀ x ∈ w, x = 0 := by
  intro x hx
  have h1 := mem_le_max_abs w x hx
  have h2 : |x| ≤ 0 := le_trans h1 (not_lt.mp h)
  exact abs_eq_zero.mp (le_antisymm h2 (abs_nonneg x))

theorem max_abs_all_zero (w : List ℚ) (h : ∀ x ∈ w, x = 0) : max_abs w = 0 := by
  induction w with
  | nil => rfl
  | cons a rest ih =>
    have ha := h a (by simp)
    have hr := ih (fun x hx => h x (by simp [hx]))
    simp only [max_abs, List.map_cons, List.foldr_cons] at *
    rw [ha, hr]
    simp

theorem max_abs_pos_exists (w : List ℚ) (h : 0 < max_abs w) : ∃ y ∈ w, y ≠ 0 := by
  by_contra hall
  push_neg at hall
  rw [max_abs_all_zero w hall] at h
  exact lt_irrefl 0 h

theorem mean_square_pos (w : List ℚ) (x : ℚ) (hx : x ∈ w) (hx0 : x ≠ 0) :
    0 < mean_square w := by
  unfold mean_square
  apply div_pos
  · have hnn : ∀ z ∈ w.map (fun y => y ^ 2), 0 ≤ z := by
      intro z hz
      obtain ⟨y, _, rfl⟩ := List.mem_map.mp hz
      positivity
    have hmem : x ^ 2 ∈ w.map (fun y => y ^ 2) := List.mem_map_of_mem _ hx
    exact lt_of_lt_of_le (by positivity) (List.single_le_sum hnn _ hmem)
  · have hlen : 0 < w.length := List.length_pos.mpr (by rintro rfl; simp at hx)
    exact_mod_cast hlen

theorem rat_clip_range (x : ℚ) : -1 ≤ rat_clip x ∧ rat_clip x ≤ 1 := by
  unfold rat_clip
  exact ⟨le_max_left _ _, max_le (by norm_num) (min_le_right _ _)⟩

theorem truncate_len (w : List ℚ) : (truncate_step w).1.length ≤ MAX_SAMPLES := by
  unfold truncate_step
  split_ifs with h
  · simp [List.length_take]
  · simpa using not_lt.mp h

theorem truncate_trunc (w : List ℚ) (h : MAX_SAMPLES < w.length) :
    (truncate_step w).1.length = MAX_SAMPLES ∧ (truncate_step w).2 = true := by
  unfold truncate_step
  rw [if_pos h]
  simp [List.length_take]
  omega

theorem normalize_len (f : ℚ → ℚ) (w : List ℚ) :
    (normalize_step f w).1.length = w.length := by
  simp only [normalize_step]
  split_ifs <;> simp

theorem normalize_range (f : ℚ → ℚ) (w : List ℚ)
    (hf : ∀ q, 0 < q → 0 < f q) :
    ∀ x ∈ (normalize_step f w).1, -1 ≤ x ∧ x ≤ 1 := by
  unfold normalize_step
  by_cases hm : 0 < max_abs w
  · rw [if_pos hm]
    obtain ⟨y, hy, hy0⟩ := max_abs_pos_exists w hm
    have hrms : 0 < f (mean_square w) := hf _ (mean_square_pos w y hy hy0)
    rw [if_pos hrms]
    intro x hx
    obtain ⟨z, _, rfl⟩ := List.mem_map.mp hx
    exact rat_clip_range _
  · rw [if_neg hm]
    intro x hx
    have hx0 : x = 0 := max_abs_zero_all w hm x hx
    subst hx0
    constructor <;> norm_num

/-- C3: for every decoded input that passes validation, the preprocessing
    result has sample_rate exactly 16000 (and records it as the target rate),
    records resampled = true whenever the native rate differed, has at most
    MAX_SAMPLES = 480000 samples with any longer (post-resampling) waveform cut
    to exactly 480000 and truncated = true, and every output sample lies in
    [-1, 1]. Quantified over the external resampler and square root, the
    latter assumed positive on positive input as the real np.sqrt is. -/
theorem C3_preprocessing (resample : List ℚ → ℕ → ℕ → List ℚ) (sqrtFn : ℚ → ℚ)
    (w : List RSample) (sr : ℕ) (meta : AudioMetadata) (pa : ProcessedAudio)
    (hsqrt : ∀ q, 0 < q → 0 < sqrtFn q)
    (hok : process_audio_decoded resample sqrtFn w sr meta = .ok pa) :
    pa.sample_rate = TARGET_SAMPLE_RATE ∧
    pa.processing_info.target_sample_rate = TARGET_SAMPLE_RATE ∧
    (sr ≠ TARGET_SAMPLE_RATE → pa.processing_info.resampled = true) ∧
    pa.waveform.length ≤ MAX_SAMPLES ∧
    (MAX_SAMPLES < (resample_step resample (w.map rs_val) sr).1.length →
      pa.waveform.length = MAX_SAMPLES ∧ pa.processing_info.truncated = true) ∧
    (∀ x ∈ pa.waveform, -1 ≤ x ∧ x ≤ 1) := by
  unfold process_audio_decoded at hok
  cases hv : validate_audio_data w meta with
  | error e =>
    rw [hv] at hok
    exact absurd hok (by simp)
  | ok u =>
    rw [hv] at hok
    simp only [preprocess_for_yamnet] at hok
    injection hok with hpa
    subst hpa
    refine ⟨rfl, rfl, ?_, ?_, ?_, ?_⟩
    · intro hne
      simp [resample_step, hne]
    · simpa [normalize_len] using
        truncate_len (resample_step resample (w.map rs_val) sr).1
    · intro hlong
      obtain ⟨hl, hf⟩ := truncate_trunc _ hlong
      constructor
      · simpa [normalize_len] using hl
      · simpa using hf
    · exact normalize_range sqrtFn _ hsqrt

/-- Closed instance of C3_preprocessing: a concrete waveform at the target rate
    passes validation and every stated property holds of the concrete output. -/
theorem C3_preprocessing_witness :
    ∃ pa : ProcessedAudio,
      process_audio_decoded (fun v _ _ => v) (fun q => q) [RSample.val (1/2)] 16000
        { duration := 1, sample_rate := 16000, channels := 1,
          format := none, file_size := none } = .ok pa ∧
      pa.sample_rate = TARGET_SAMPLE_RATE ∧
      pa.waveform.length ≤ MAX_SAMPLES ∧
      (∀ x ∈ pa.waveform, -1 ≤ x ∧ x ≤ 1) := by
  have hsqrt : ∀ q : ℚ, 0 < q → 0 < (fun q : ℚ => q) q := fun q h => h
  have hok : process_audio_decoded (fun v _ _ => v) (fun q : ℚ => q) [RSample.val (1/2)] 16000
      { duration := 1, sample_rate := 16000, channels := 1,
        format := none, file_size := none } =
      .ok { waveform := [1/5], sample_rate := 16000,
            processing_info :=
              { original_sample_rate := 16000, target_sample_rate := 16000,
                resampled := false, normalized := true, truncated := false } } := by
    norm_num [process_audio_decoded, validate_audio_data, MIN_DURATION, rs_is_zero,
      rs_invalid, preprocess_for_yamnet, resample_step, truncate_step, normalize_step,
      TARGET_SAMPLE_RATE, MAX_SAMPLES, max_abs, mean_square, rs_val, rat_clip]
  refine ⟨_, hok, ?_⟩
  have h := C3_preprocessing (fun v _ _ => v) (fun q : ℚ => q) [RSample.val (1/2)] 16000
    { duration := 1, sample_rate := 16000, channels := 1,
      format := none, file_size := none } _ hsqrt hok
  exact ⟨h.1, h.2.2.2.1, h.2.2.2.2.2⟩

/- ## URL acquisition lemmas for C8 -/

theorem isPrefixOf_iff_exists (l1 : List Char) : ∀ l2 : List Char,
    l1.isPrefixOf l2 = true ↔ ∃ t, l1 ++ t = l2 := by
  induction l1 with
  | nil => intro l2; simp [List.isPrefixOf]
  | cons a as ih =>
    intro l2
    cases l2 with
    | nil => simp [List.isPrefixOf]
    | cons b bs =>
      simp only [List.isPrefixOf, Bool.and_eq_true, beq_iff_eq, ih, List.cons_append,
        List.cons.injEq]
      constructor
      · rintro ⟨rfl, t, rfl⟩
        exact ⟨t, rfl, rfl⟩
      · rintro ⟨t, rfl, rfl⟩
        exact ⟨rfl, t, rfl⟩

theorem takeWhile_scheme_http (t : List Char) :
    (('h' :: 't' :: 't' :: 'p' :: ':' :: '/' :: '/' :: t).takeWhile
      (fun c => c != ':')) = ['h', 't', 't', 'p'] := by
  simp [List.takeWhile_cons]

theorem takeWhile_scheme_https (t : List Char) :
    (('h' :: 't' :: 't' :: 'p' :: 's' :: ':' :: '/' :: '/' :: t).takeWhile
      (fun c => c != ':')) = ['h', 't', 't', 'p', 's'] := by
  simp [List.takeWhile_cons]

theorem scheme_of_http (url : String) (h : "http://".data.isPrefixOf url.data = true) :
    url_scheme url = "http".data := by
  obtain ⟨t, ht⟩ := (isPrefixOf_iff_exists _ _).mp h
  have hd : "http://".data = ['h', 't', 't', 'p', ':', '/', '/'] := by decide
  rw [hd] at ht
  unfold url_scheme
  rw [← ht]
  have hd2 : "http".data = ['h', 't', 't', 'p'] := by decide
  rw [hd2]
  exact takeWhile_scheme_http t

theorem scheme_of_https (url : String) (h : "https://".data.isPrefixOf url.data = true) :
    url_scheme url = "https".data := by
  obtain ⟨t, ht⟩ := (isPrefixOf_iff_exists _ _).mp h
  have hd : "https://".data = ['h', 't', 't', 'p', 's', ':', '/', '/'] := by decide
  rw [hd] at ht
  unfold url_scheme
  rw [← ht]
  have hd2 : "https".data = ['h', 't', 't', 'p', 's'] := by decide
  rw [hd2]
  exact takeWhile_scheme_https t

theorem fetch_loop_count {α : Type} (fetch : ℕ → Except String ByteData)
    (processBytes : ByteData → Except String α) :
    ∀ (r a : ℕ), (fetch_loop fetch processBytes r a).2 ≤ a + r + 1 := by
  intro r
  induction r with
  | zero =>
    intro a
    unfold fetch_loop
    cases hf : fetch a with
    | ok bytes => cases hp : processBytes bytes <;> simp [hp]
    | error e => simp
  | succ r' ih =>
    intro a
    unfold fetch_loop
    cases hf : fetch a with
    | ok bytes => cases hp : processBytes bytes <;> simp [hp]
    | error e =>
      have h := ih (a + 1)
      simp only []
      omega

theorem fetch_loop_all_fail {α : Type} (fetch : ℕ → Except String ByteData)
    (processBytes : ByteData → Except String α) (errf : ℕ → String) :
    ∀ (r a : ℕ), (∀ i, a ≤ i → i ≤ a + r → fetch i = .error (errf i)) →
      fetch_loop fetch processBytes r a =
        (.error (.fetchExhausted (errf (a + r))), a + r + 1) := by
  intro r
  induction r with
  | zero =>
    intro a h
    unfold fetch_loop
    rw [h a le_rfl (by omega)]
    simp
  | succ r' ih =>
    intro a h
    unfold fetch_loop
    rw [h a le_rfl (by omega)]
    have hrec := ih (a + 1) (fun i h1 h2 => h i (by omega) (by omega))
    have harith : a + 1 + r' = a + (r' + 1) := by omega
    rw [harith] at hrec
    simpa using hrec

/-- C8: the URL acquisition path rejects a URL whose scheme is neither http nor
    https with InvalidSource and zero fetch attempts (before any network call);
    it never makes more than max_retries + 1 fetch attempts; and when every
    attempt fails it makes exactly max_retries + 1 attempts and fails with the
    exhaustion error carrying the last attempt's underlying error. -/
theorem C8_url_acquisition {α : Type} (fetch : ℕ → Except String ByteData)
    (processBytes : ByteData → Except String α) (audio_url : String)
    (max_retries : ℕ) :
    ((url_scheme audio_url ≠ "http".data ∧ url_scheme audio_url ≠ "https".data) →
      process_audio_from_url fetch processBytes audio_url max_retries =
        (.error .invalidSource, 0)) ∧
    (process_audio_from_url fetch processBytes audio_url max_retries).2 ≤
      max_retries + 1 ∧
    (∀ errf : ℕ → String, (∀ i, i ≤ max_retries → fetch i = .error (errf i)) →
      valid_url audio_url = true →
      process_audio_from_url fetch processBytes audio_url max_retries =
        (.error (.fetchExhausted (errf max_retries)), max_retries + 1)) := by
  refine ⟨?_, ?_, ?_⟩
  · rintro ⟨h1, h2⟩
    unfold process_audio_from_url
    have hv : ¬ (valid_url audio_url = true) := by
      intro hvt
      unfold valid_url at hvt
      rcases Bool.or_eq_true_iff.mp hvt with hp | hp
      · exact h1 (scheme_of_http _ hp)
      · exact h2 (scheme_of_https _ hp)
    rw [if_neg hv]
  · unfold process_audio_from_url
    split_ifs with h
    · have hc := fetch_loop_count fetch processBytes max_retries 0
      omega
    · simp
  · intro errf hfail hv
    unfold process_audio_from_url
    rw [if_pos hv]
    have h := fetch_loop_all_fail fetch processBytes errf max_retries 0
      (fun i _ h2 => hfail i (by omega))
    simpa using h

/-- Closed instance of C8_url_acquisition: with every attempt failing with
    "boom", a 2-retry fetch of a valid http URL makes 3 attempts and fails with
    the exhaustion error carrying "boom". -/
theorem C8_url_acquisition_witness :
    process_audio_from_url (fun _ => Except.error "boom")
      (fun _ => Except.ok ()) "http://example.com/a.wav" 2 =
      (.error (.fetchExhausted "boom"), 3) :=
  (C8_url_acquisition (fun _ => Except.error "boom") (fun _ => Except.ok ())
      "http://example.com/a.wav" 2).2.2 (fun _ => "boom") (fun _ _ => rfl) (by decide)

/- ## Classifier guards: C4 and C9 -/

/-- C4 as stated is false: with an initialized classifier and a 1-D waveform, a
    call at sample_rate 8000 (≠ 16000) is not rejected; classify_audio proceeds
    and produces a classification result (the source only logs a warning at
    yamnet_wrapper.py lines 293-297). -/
theorem C4_counterexample :
    (8000 ≠ 16000) ∧
    (classify_audio
        { model := some (), class_names := some ["Speech"], initialized := true }
        [[1/2]] 1 8000 5).isOk = true := by
  constructor
  · decide
  · simp [classify_audio, Except.isOk, Except.toBool]

/-- C4 amended: a sample_rate other than 16000 is never a reason for rejection:
    for every initialized classifier with a loaded model and every 1-D
    waveform, classify_audio succeeds whatever the sample rate; rejection
    happens only for an uninitialized classifier (NotInitialized) or a non-1-D
    waveform (ValueError). -/
theorem C4_sample_rate_not_rejected (st : YState) (frame_scores : List (List ℚ))
    (sample_rate top_k : ℕ)
    (hinit : st.initialized = true) (hmodel : st.model.isSome = true) :
    (classify_audio st frame_scores 1 sample_rate top_k).isOk = true := by
  have hnone : st.model.isNone = false := by
    cases hm : st.model with
    | none => rw [hm] at hmodel; simp at hmodel
    | some v => rfl
  simp [classify_audio, hinit, hnone, Except.isOk, Except.toBool]

/-- Closed instance of C4_sample_rate_not_rejected at sample rate 44100. -/
theorem C4_sample_rate_not_rejected_witness :
    (classify_audio
        { model := some (), class_names := some ["Speech"], initialized := true }
        [[1/2]] 1 44100 5).isOk = true :=
  C4_sample_rate_not_rejected
    { model := some (), class_names := some ["Speech"], initialized := true }
    [[1/2]] 44100 5 rfl rfl

/-- C9: calling classify_audio on a fresh classifier fails with the
    NotInitialized error; after a successful initialize, no call fails on that
    ground any more; and a second initialize is a no-op that returns the state
    unchanged and raises no error. -/
theorem C9_lifecycle (load : Except String (Unit × List String)) (m : Unit)
    (names : List String) (st2 : YState)
    (frames : List (List ℚ)) (ndim sr k : ℕ)
    (hload : load = .ok (m, names))
    (hinit : initClassifier freshClassifier load = .ok st2) :
    (classify_audio freshClassifier frames ndim sr k = .error .notInitialized) ∧
    (∀ (f2 : List (List ℚ)) (n2 s2 k2 : ℕ),
      classify_audio st2 f2 n2 s2 k2 ≠ .error .notInitialized) ∧
    (∀ load2, initClassifier st2 load2 = .ok st2) := by
  subst hload
  have hst : st2 = { model := some m, class_names := some names, initialized := true } := by
    simp [initClassifier, freshClassifier] at hinit
    exact hinit.symm
  subst hst
  refine ⟨?_, ?_, ?_⟩
  · simp [classify_audio, freshClassifier]
  · intro f2 n2 s2 k2
    simp only [classify_audio]
    split_ifs <;> simp_all
  · intro load2
    simp [initClassifier]

/-- Closed instance of C9_lifecycle: after initializing a fresh classifier, an
    inference call does not fail with NotInitialized. -/
theorem C9_lifecycle_witness :
    classify_audio
      { model := some (), class_names := some ["Speech"], initialized := true }
      [[1/2]] 1 16000 5 ≠ Except.error ClassifyError.notInitialized :=
  (C9_lifecycle (.ok ((), ["Speech"])) () ["Speech"]
      { model := some (), class_names := some ["Speech"], initialized := true }
      [] 0 0 0 rfl rfl).2.1 [[1/2]] 1 16000 5
